import Mathlib

/-! State-access bridge of the VM (`vm/state_reader.go`)

A shallow embedding of the exported read and write operations of the bridge
between the execution engine and the state view, and the properties of its
missing-key, failure and logging policies.

Conventions of the embedding.

* A C pointer that is either `nil` or the address of a buffer is an `Option` of
  the buffer's contents.
* A Go `(value, error)` result is an `Except GoError value`; a lone `error`
  result is an `Option GoError` (`none` is Go's `nil`).
* The state view and the logger hang off the context a handle resolves to.  The
  registry of contexts is passed explicitly and every operation returns the
  registry it leaves behind.  An operation applied to a handle that is not
  registered panics in Go; that is the outer `none` of each result.
-/

namespace vm

/-! ## Go errors -/

/-- Go `error` values: a sentinel made by `errors.New`, or an error wrapping
another one (as `fmt.Errorf` with the wrapping verb builds). -/
inductive GoError where
  | sentinel (text : String)
  | wrapped (text : String) (inner : GoError)
  deriving DecidableEq, Repr

/-- Go's `errors.Is`: walk the chain of wrapped errors looking for `target`. -/
def errorsIs : GoError → GoError → Bool
  | .sentinel t, target => decide (GoError.sentinel t = target)
  | .wrapped t inner, target =>
      decide (GoError.wrapped t inner = target) || errorsIs inner target

end vm

namespace db

/-- The sentinel `db.ErrKeyNotFound` of the database package. -/
def ErrKeyNotFound : vm.GoError := .sentinel "key not found"

end db

/-! ## Field elements and their wire format -/

namespace felt

/-- Modelled from the spec: the prime of the field (package `felt` is not among
the sources).  The spec only says "a large prime" whose elements fit 32 bytes;
this is the prime of the Starknet field, `2^251 + 17 * 2^192 + 1`. -/
def Modulus : Nat := 2 ^ 251 + 17 * 2 ^ 192 + 1

/-- Width of a field element on the wire, `felt.Bytes`. -/
def Bytes : Nat := 32

/-- Modelled from the spec: a field element, "a fixed-width (32-byte) unsigned
integer value modulo a large prime", kept canonically reduced. -/
structure Felt where
  val : Nat
  canonical : val < Modulus
  deriving DecidableEq, Repr

theorem modulus_pos : 0 < Modulus := by
  unfold Modulus; norm_num

/-- The additive identity `felt.Zero`. -/
def Zero : Felt := ⟨0, modulus_pos⟩

end felt

namespace vm

open felt (Felt)

/-- A cross-boundary buffer holding one field element: exactly 32 bytes. -/
abbrev Bytes32 := { l : List (Fin 256) // l.length = felt.Bytes }

/-- Big-endian value of a byte string. -/
def fromBigEndian (l : List (Fin 256)) : Nat :=
  l.foldl (fun acc b => acc * 256 + b.val) 0

/-- The `n` low-order base-256 digits of `x`, most significant first. -/
def toBigEndian : Nat → Nat → List (Fin 256)
  | 0, _ => []
  | n + 1, x => toBigEndian n (x / 256) ++ [⟨x % 256, Nat.mod_lt _ (by decide)⟩]

theorem toBigEndian_length (n x : Nat) : (toBigEndian n x).length = n := by
  induction n generalizing x with
  | zero => rfl
  | succ n ih => simp [toBigEndian, ih]

/-- Modelled from the spec: `makeFeltFromPtr` is not among the sources.
"`decode(bytes) -> FieldElement` interprets a fixed-length input buffer as a
field element", 32 bytes big-endian, "canonically reduced modulo the field's
prime before use". -/
def makeFeltFromPtr (ptr : Bytes32) : Felt :=
  ⟨fromBigEndian ptr.val % felt.Modulus, Nat.mod_lt _ felt.modulus_pos⟩

/-- Modelled from the spec: `makePtrFromFelt` is not among the sources.
"`encode(FieldElement) -> bytes` produces the same fixed-length buffer, newly
allocated, ownership transferred to the caller." -/
def makePtrFromFelt (val : Felt) : Bytes32 :=
  ⟨toBigEndian felt.Bytes val.val, toBigEndian_length _ _⟩

/-- Modelled from the spec: `cstring` is not among the sources.  The marshaled
class goes "into a newly allocated buffer" handed to the caller; the buffer is
represented by the bytes it holds. -/
def cstring (data : List (Fin 256)) : List (Fin 256) := data

/-! ## Contexts, handles, state view -/

/-- One call of `log.Errorw(msg, "err", err)`. -/
structure LogEntry where
  msg : String
  key : String
  err : GoError
  deriving DecidableEq, Repr

/-- The value `Class` of the state view returns: the class and the block it was
declared at; only the field `Class` is read by the bridge. -/
structure DeclaredClass (κ : Type) where
  At : Nat
  Class : κ

/-- The operations of the state view that the bridge calls, over a store of
type `σ` holding classes of type `κ`.  The state view is an external
collaborator: lookups tell a value from an error, mutations return the store
they leave behind and the error they report, if any. -/
structure StateView (σ κ : Type) where
  ContractStorage : σ → Felt → Felt → Except GoError Felt
  ContractNonce : σ → Felt → Except GoError Felt
  ContractClassHash : σ → Felt → Except GoError Felt
  Class : σ → Felt → Except GoError (DeclaredClass κ)
  SetStorage : σ → Felt → Felt → Felt → Nat → σ × Option GoError
  SetClassHashAt : σ → Felt → Felt → Nat → σ × Option GoError
  SetCompiledClassHash : σ → Felt → Felt → Nat → σ × Option GoError

/-- The context a handle stands for: the state of the state view and what the
diagnostic sink has received so far. -/
structure Context (σ : Type) where
  state : σ
  log : List LogEntry

/-- The handle registry: the context of each live handle. -/
abbrev Registry (σ : Type) := Nat → Option (Context σ)

/-- The registry with no live handle. -/
def Registry.empty {σ : Type} : Registry σ := fun _ => none

/-- The registry after the context of `handle` has become `ctx`. -/
def Registry.store {σ : Type} (reg : Registry σ) (handle : Nat) (ctx : Context σ) :
    Registry σ :=
  fun h => if h = handle then some ctx else reg h

/-- Modelled from the spec: `unwrapContext` is not among the sources.
"`resolve(handle) -> Context` returns the registered context for a handle",
side-effect free; `none` for a handle that is not live. -/
def unwrapContext {σ : Type} (reg : Registry σ) (handle : Nat) : Option (Context σ) :=
  reg handle

/-- The method `Errorw(msg, "err", err)` of the context's logger: one more entry
in the sink. -/
def Context.Errorw {σ : Type} (ctx : Context σ) (msg key : String) (err : GoError) :
    Context σ :=
  { ctx with log := ctx.log ++ [⟨msg, key, err⟩] }

/-! ## Read facade -/

/-- The exported `JunoStateGetStorageAt`. -/
def JunoStateGetStorageAt {σ κ : Type} (sv : StateView σ κ) (reg : Registry σ)
    (readerHandle : Nat) (contractAddress storageLocation : Bytes32) :
    Option (Registry σ × Option Bytes32) :=
  match unwrapContext reg readerHandle with
  | none => none
  | some context =>
    let contractAddressFelt := makeFeltFromPtr contractAddress
    let storageLocationFelt := makeFeltFromPtr storageLocation
    match sv.ContractStorage context.state contractAddressFelt storageLocationFelt with
    | .error err =>
      if !errorsIs err db.ErrKeyNotFound then
        some (reg.store readerHandle
          (context.Errorw "JunoStateGetStorageAt failed to read contract storage" "err" err),
          none)
      else
        some (reg, some (makePtrFromFelt felt.Zero))
    | .ok val => some (reg, some (makePtrFromFelt val))

/-- The exported `JunoStateGetNonceAt`. -/
def JunoStateGetNonceAt {σ κ : Type} (sv : StateView σ κ) (reg : Registry σ)
    (readerHandle : Nat) (contractAddress : Bytes32) :
    Option (Registry σ × Option Bytes32) :=
  match unwrapContext reg readerHandle with
  | none => none
  | some context =>
    let contractAddressFelt := makeFeltFromPtr contractAddress
    match sv.ContractNonce context.state contractAddressFelt with
    | .error err =>
      if !errorsIs err db.ErrKeyNotFound then
        some (reg.store readerHandle
          (context.Errorw "JunoStateGetNonceAt failed to read contract nonce" "err" err),
          none)
      else
        some (reg, some (makePtrFromFelt felt.Zero))
    | .ok val => some (reg, some (makePtrFromFelt val))

/-- The exported `JunoStateGetClassHashAt`. -/
def JunoStateGetClassHashAt {σ κ : Type} (sv : StateView σ κ) (reg : Registry σ)
    (readerHandle : Nat) (contractAddress : Bytes32) :
    Option (Registry σ × Option Bytes32) :=
  match unwrapContext reg readerHandle with
  | none => none
  | some context =>
    let contractAddressFelt := makeFeltFromPtr contractAddress
    match sv.ContractClassHash context.state contractAddressFelt with
    | .error err =>
      if !errorsIs err db.ErrKeyNotFound then
        some (reg.store readerHandle
          (context.Errorw "JunoStateGetClassHashAt failed to read contract class" "err" err),
          none)
      else
        some (reg, some (makePtrFromFelt felt.Zero))
    | .ok val => some (reg, some (makePtrFromFelt val))

/-- The exported `JunoStateGetCompiledClass`.  `marshalCompiledClass` is not
among the sources and is taken as a parameter: it yields the serialized class
or an error. -/
def JunoStateGetCompiledClass {σ κ : Type} (sv : StateView σ κ)
    (marshalCompiledClass : κ → Except GoError (List (Fin 256))) (reg : Registry σ)
    (readerHandle : Nat) (classHash : Bytes32) :
    Option (Registry σ × Option (List (Fin 256))) :=
  match unwrapContext reg readerHandle with
  | none => none
  | some context =>
    let classHashFelt := makeFeltFromPtr classHash
    match sv.Class context.state classHashFelt with
    | .error err =>
      if !errorsIs err db.ErrKeyNotFound then
        some (reg.store readerHandle
          (context.Errorw "JunoStateGetCompiledClass failed to read class" "err" err),
          none)
      else
        some (reg, none)
    | .ok val =>
      match marshalCompiledClass val.Class with
      | .error err =>
        some (reg.store readerHandle
          (context.Errorw "JunoStateGetCompiledClass failed to marshal compiled class"
            "err" err),
          none)
      | .ok compiledClass => some (reg, some (cstring compiledClass))

/-! ## Write facade -/

/-- The exported `JunoStateSetContractClass`: resolves the handle, decodes the
class hash, and returns. -/
def JunoStateSetContractClass {σ : Type} (reg : Registry σ) (handle : Nat)
    (classHash : Bytes32) (_class : List (Fin 256)) : Option (Registry σ) :=
  match unwrapContext reg handle with
  | none => none
  | some _ctx =>
    let _classHashFelt := makeFeltFromPtr classHash
    some reg

/-- The exported `JunoStateSetStorage`. -/
def JunoStateSetStorage {σ κ : Type} (sv : StateView σ κ) (reg : Registry σ)
    (handle : Nat) (addr key value : Bytes32) : Option (Registry σ) :=
  match unwrapContext reg handle with
  | none => none
  | some ctx =>
    let addrFelt := makeFeltFromPtr addr
    let keyFelt := makeFeltFromPtr key
    let valueFelt := makeFeltFromPtr value
    match sv.SetStorage ctx.state addrFelt keyFelt valueFelt 0 with
    | (state, some err) =>
      some (reg.store handle
        (Context.Errorw { ctx with state := state }
          "JunoStateSetStorage failed to set storage" "err" err))
    | (state, none) => some (reg.store handle { ctx with state := state })

/-- The exported `JunoStateSetNonce`: resolves the handle, decodes the address
and the nonce, and returns. -/
def JunoStateSetNonce {σ : Type} (reg : Registry σ) (handle : Nat)
    (addr nonce : Bytes32) : Option (Registry σ) :=
  match unwrapContext reg handle with
  | none => none
  | some _ctx =>
    let _addrFelt := makeFeltFromPtr addr
    let _nonceAddr := makeFeltFromPtr nonce
    some reg

/-- The exported `JunoStateSetClassHashAt`. -/
def JunoStateSetClassHashAt {σ κ : Type} (sv : StateView σ κ) (reg : Registry σ)
    (handle : Nat) (addr classHash : Bytes32) : Option (Registry σ) :=
  match unwrapContext reg handle with
  | none => none
  | some ctx =>
    let addrFelt := makeFeltFromPtr addr
    let classHashFelt := makeFeltFromPtr classHash
    match sv.SetClassHashAt ctx.state addrFelt classHashFelt 0 with
    | (state, some err) =>
      some (reg.store handle
        (Context.Errorw { ctx with state := state }
          "JunoStateSetClassHashAt failed to set class hash at contract addr" "err" err))
    | (state, none) => some (reg.store handle { ctx with state := state })

/-- The exported `JunoStateSetCompiledClassHash`. -/
def JunoStateSetCompiledClassHash {σ κ : Type} (sv : StateView σ κ) (reg : Registry σ)
    (handle : Nat) (classHash compiledClassHash : Bytes32) : Option (Registry σ) :=
  match unwrapContext reg handle with
  | none => none
  | some ctx =>
    let classHashFelt := makeFeltFromPtr classHash
    let compClassHash := makeFeltFromPtr compiledClassHash
    match sv.SetCompiledClassHash ctx.state classHashFelt compClassHash 0 with
    | (state, some err) =>
      some (reg.store handle
        (Context.Errorw { ctx with state := state }
          "JunoStateSetCompiledClassHash failed to set compiled class hash" "err" err))
    | (state, none) => some (reg.store handle { ctx with state := state })

/-! ## A keyed store behind the state view -/

/-- First record stored under `k`, if any. -/
def findRecord {α β : Type} [DecidableEq α] (k : α) : List (α × β) → Option β
  | [] => none
  | (k', v) :: rest => if k' = k then some v else findRecord k rest

/-- Modelled from the spec: the state store is not among the sources.  The state
view is an "external keyed store of storage/nonce/class-hash/class records",
storage keyed by "contract address + slot key"; "absence of a record is a
valid, distinguished state".  A store-internal failure can be injected: while
`fault` is set every operation of the store reports it. -/
structure MapState (κ : Type) where
  storage : List ((Felt × Felt) × Felt)
  nonces : List (Felt × Felt)
  classHashes : List (Felt × Felt)
  compiledClassHashes : List (Felt × Felt)
  classes : List (Felt × DeclaredClass κ)
  fault : Option GoError

/-- The store with no record and no fault. -/
def MapState.empty {κ : Type} : MapState κ :=
  { storage := [], nonces := [], classHashes := [], compiledClassHashes := [],
    classes := [], fault := none }

/-- A lookup in the store: the injected fault, else the record, else
`db.ErrKeyNotFound`. -/
def MapState.lookup {κ α β : Type} [DecidableEq α] (s : MapState κ) (k : α)
    (records : List (α × β)) : Except GoError β :=
  match s.fault with
  | some e => .error e
  | none =>
    match findRecord k records with
    | some v => .ok v
    | none => .error db.ErrKeyNotFound

/-- Modelled from the spec: the state view over `MapState`.  Lookups
distinguish "not found" from other failures; a set makes "the state view's
record for the given key ... created or overwritten", and under an injected
fault reports the fault and leaves the store as it was. -/
def mapView {κ : Type} : StateView (MapState κ) κ where
  ContractStorage s a k := s.lookup (a, k) s.storage
  ContractNonce s a := s.lookup a s.nonces
  ContractClassHash s a := s.lookup a s.classHashes
  Class s h := s.lookup h s.classes
  SetStorage s a k v _ :=
    match s.fault with
    | some e => (s, some e)
    | none => ({ s with storage := ((a, k), v) :: s.storage }, none)
  SetClassHashAt s a h _ :=
    match s.fault with
    | some e => (s, some e)
    | none => ({ s with classHashes := (a, h) :: s.classHashes }, none)
  SetCompiledClassHash s h c _ :=
    match s.fault with
    | some e => (s, some e)
    | none => ({ s with compiledClassHashes := (h, c) :: s.compiledClassHashes }, none)

/-- The state view returns from a storage lookup what the last successful
`SetStorage` for that address and key stored. -/
def StorageReadsItsWrites {σ κ : Type} (sv : StateView σ κ) : Prop :=
  ∀ (s s' : σ) (a k v : Felt) (n : Nat),
    sv.SetStorage s a k v n = (s', none) → sv.ContractStorage s' a k = .ok v

/-- The 32-byte big-endian buffer of a number (its low 256 bits). -/
def bytes32OfNat (n : Nat) : Bytes32 := ⟨toBigEndian felt.Bytes n, toBigEndian_length _ _⟩

/-- A store-internal failure, unrelated to `db.ErrKeyNotFound`. -/
def ioFailure : GoError := .sentinel "input/output error"

/-- A context over the empty store with an empty log. -/
def emptyContext : Context (MapState Nat) := { state := MapState.empty, log := [] }

/-- A context over a store with an injected store-internal failure. -/
def faultyContext : Context (MapState Nat) :=
  { state := { (MapState.empty : MapState Nat) with fault := some ioFailure }, log := [] }

/-- A marshaler for classes numbered by `Nat`: class `0` has an unsupported
version, class `c` marshals to the single byte `c`. -/
def sampleMarshal (c : Nat) : Except GoError (List (Fin 256)) :=
  if c = 0 then .error (.sentinel "unsupported class version")
  else .ok [⟨c % 256, Nat.mod_lt _ (by decide)⟩]

/-- A context over a store holding class `7` under hash `0xdead` and the
unsupported class `0` under hash `0xbeef`. -/
def classContext : Context (MapState Nat) :=
  { state :=
      { (MapState.empty : MapState Nat) with
        classes := [(makeFeltFromPtr (bytes32OfNat 0xdead), ⟨0, 7⟩),
                    (makeFeltFromPtr (bytes32OfNat 0xbeef), ⟨0, 0⟩)] },
    log := [] }

/-- A context over a store holding storage, nonce and class-hash records for
address `1`. -/
def recordContext : Context (MapState Nat) :=
  { state :=
      { (MapState.empty : MapState Nat) with
        storage := [((makeFeltFromPtr (bytes32OfNat 1), makeFeltFromPtr (bytes32OfNat 2)),
                     makeFeltFromPtr (bytes32OfNat 9))],
        nonces := [(makeFeltFromPtr (bytes32OfNat 1), makeFeltFromPtr (bytes32OfNat 5))],
        classHashes := [(makeFeltFromPtr (bytes32OfNat 1),
                         makeFeltFromPtr (bytes32OfNat 0xdead))] },
    log := [] }

/-- Handle `1` is live over the empty store, handle `2` over the faulty one,
handle `3` over the store with classes, handle `4` over the store with
records. -/
def sampleRegistry : Registry (MapState Nat) :=
  (((Registry.empty.store 1 emptyContext).store 2 faultyContext).store 3
    classContext).store 4 recordContext

/-- The 32-byte buffer with every byte `0xff`: the number `2^256 - 1`, which is
not below the prime. -/
def allOnes : Bytes32 := ⟨List.replicate 32 255, rfl⟩

/-! ## Properties -/

theorem unwrapContext_store {σ : Type} (reg : Registry σ) (h : Nat) (ctx : Context σ) :
    unwrapContext (reg.store h ctx) h = some ctx := by
  simp [unwrapContext, Registry.store]

/-- C1: on a live handle, when the lookup of the state view reports an error
that is `db.ErrKeyNotFound`, each of `JunoStateGetStorageAt`,
`JunoStateGetNonceAt` and `JunoStateGetClassHashAt` returns a non-null buffer,
the encoding of the zero field element (32 zero bytes), and leaves the
registry as it was. -/
theorem C1_missing_key_reads_zero {σ κ : Type} (sv : StateView σ κ) (reg : Registry σ)
    (h : Nat) (ctx : Context σ) (a k : Bytes32) (hlive : unwrapContext reg h = some ctx) :
    (∀ e, sv.ContractStorage ctx.state (makeFeltFromPtr a) (makeFeltFromPtr k) = .error e →
        errorsIs e db.ErrKeyNotFound = true →
        JunoStateGetStorageAt sv reg h a k = some (reg, some (makePtrFromFelt felt.Zero))) ∧
    (∀ e, sv.ContractNonce ctx.state (makeFeltFromPtr a) = .error e →
        errorsIs e db.ErrKeyNotFound = true →
        JunoStateGetNonceAt sv reg h a = some (reg, some (makePtrFromFelt felt.Zero))) ∧
    (∀ e, sv.ContractClassHash ctx.state (makeFeltFromPtr a) = .error e →
        errorsIs e db.ErrKeyNotFound = true →
        JunoStateGetClassHashAt sv reg h a = some (reg, some (makePtrFromFelt felt.Zero))) ∧
    (makePtrFromFelt felt.Zero).val = List.replicate 32 0 := by
  refine ⟨?_, ?_, ?_, ?_⟩
  · intro e he hnf
    simp [JunoStateGetStorageAt, hlive, he, hnf]
  · intro e he hnf
    simp [JunoStateGetNonceAt, hlive, he, hnf]
  · intro e he hnf
    simp [JunoStateGetClassHashAt, hlive, he, hnf]
  · decide

theorem C1_missing_key_reads_zero_witness :
    JunoStateGetStorageAt mapView sampleRegistry 1 (bytes32OfNat 1) (bytes32OfNat 2)
        = some (sampleRegistry, some (makePtrFromFelt felt.Zero)) ∧
    JunoStateGetNonceAt mapView sampleRegistry 1 (bytes32OfNat 1)
        = some (sampleRegistry, some (makePtrFromFelt felt.Zero)) ∧
    JunoStateGetClassHashAt mapView sampleRegistry 1 (bytes32OfNat 1)
        = some (sampleRegistry, some (makePtrFromFelt felt.Zero)) :=
  have T := C1_missing_key_reads_zero mapView sampleRegistry 1 emptyContext
    (bytes32OfNat 1) (bytes32OfNat 2) rfl
  ⟨T.1 db.ErrKeyNotFound rfl (by decide), T.2.1 db.ErrKeyNotFound rfl (by decide),
    T.2.2.1 db.ErrKeyNotFound rfl (by decide)⟩

/-- C5: on a live handle, when the lookup of the state view (storage: at the
decoded contract address and the decoded storage key, in that order; nonce and
class hash: at the decoded contract address) succeeds with value `x`, each of
`JunoStateGetStorageAt`, `JunoStateGetNonceAt` and `JunoStateGetClassHashAt`
returns a non-null buffer that is the encoding of `x`, and the registry, hence
the log, is as it was. -/
theorem C5_found_value_is_encoded {σ κ : Type} (sv : StateView σ κ) (reg : Registry σ)
    (h : Nat) (ctx : Context σ) (a k : Bytes32) (hlive : unwrapContext reg h = some ctx) :
    (∀ x, sv.ContractStorage ctx.state (makeFeltFromPtr a) (makeFeltFromPtr k) = .ok x →
        JunoStateGetStorageAt sv reg h a k = some (reg, some (makePtrFromFelt x))) ∧
    (∀ x, sv.ContractNonce ctx.state (makeFeltFromPtr a) = .ok x →
        JunoStateGetNonceAt sv reg h a = some (reg, some (makePtrFromFelt x))) ∧
    (∀ x, sv.ContractClassHash ctx.state (makeFeltFromPtr a) = .ok x →
        JunoStateGetClassHashAt sv reg h a = some (reg, some (makePtrFromFelt x))) := by
  refine ⟨?_, ?_, ?_⟩
  · intro x hx
    simp [JunoStateGetStorageAt, hlive, hx]
  · intro x hx
    simp [JunoStateGetNonceAt, hlive, hx]
  · intro x hx
    simp [JunoStateGetClassHashAt, hlive, hx]

theorem C5_found_value_is_encoded_witness :
    JunoStateGetStorageAt mapView sampleRegistry 4 (bytes32OfNat 1) (bytes32OfNat 2)
        = some (sampleRegistry, some (makePtrFromFelt (makeFeltFromPtr (bytes32OfNat 9)))) ∧
    JunoStateGetNonceAt mapView sampleRegistry 4 (bytes32OfNat 1)
        = some (sampleRegistry, some (makePtrFromFelt (makeFeltFromPtr (bytes32OfNat 5)))) ∧
    JunoStateGetClassHashAt mapView sampleRegistry 4 (bytes32OfNat 1)
        = some (sampleRegistry,
            some (makePtrFromFelt (makeFeltFromPtr (bytes32OfNat 0xdead)))) :=
  have T := C5_found_value_is_encoded mapView sampleRegistry 4 recordContext
    (bytes32OfNat 1) (bytes32OfNat 2) rfl
  ⟨T.1 _ rfl, T.2.1 _ rfl, T.2.2 _ rfl⟩

/-- C7: on a live handle, when the lookup of the state view fails with an error
that is not `db.ErrKeyNotFound`, each of `JunoStateGetStorageAt`,
`JunoStateGetNonceAt` and `JunoStateGetClassHashAt` appends exactly one entry,
carrying that error, to the log of the context, leaves the state alone, and
returns the null result, which is not the (non-null) encoding of zero. -/
theorem C7_failed_lookup_logs_and_returns_null {σ κ : Type} (sv : StateView σ κ)
    (reg : Registry σ) (h : Nat) (ctx : Context σ) (a k : Bytes32)
    (hlive : unwrapContext reg h = some ctx) :
    (∀ e, sv.ContractStorage ctx.state (makeFeltFromPtr a) (makeFeltFromPtr k) = .error e →
        errorsIs e db.ErrKeyNotFound = false →
        JunoStateGetStorageAt sv reg h a k =
          some (reg.store h
            { state := ctx.state,
              log := ctx.log ++
                [⟨"JunoStateGetStorageAt failed to read contract storage", "err", e⟩] },
            none)) ∧
    (∀ e, sv.ContractNonce ctx.state (makeFeltFromPtr a) = .error e →
        errorsIs e db.ErrKeyNotFound = false →
        JunoStateGetNonceAt sv reg h a =
          some (reg.store h
            { state := ctx.state,
              log := ctx.log ++
                [⟨"JunoStateGetNonceAt failed to read contract nonce", "err", e⟩] },
            none)) ∧
    (∀ e, sv.ContractClassHash ctx.state (makeFeltFromPtr a) = .error e →
        errorsIs e db.ErrKeyNotFound = false →
        JunoStateGetClassHashAt sv reg h a =
          some (reg.store h
            { state := ctx.state,
              log := ctx.log ++
                [⟨"JunoStateGetClassHashAt failed to read contract class", "err", e⟩] },
            none)) ∧
    (none : Option Bytes32) ≠ some (makePtrFromFelt felt.Zero) := by
  refine ⟨?_, ?_, ?_, ?_⟩
  · intro e he hnf
    simp [JunoStateGetStorageAt, hlive, he, hnf, Context.Errorw]
  · intro e he hnf
    simp [JunoStateGetNonceAt, hlive, he, hnf, Context.Errorw]
  · intro e he hnf
    simp [JunoStateGetClassHashAt, hlive, he, hnf, Context.Errorw]
  · simp

theorem C7_failed_lookup_logs_and_returns_null_witness :
    JunoStateGetStorageAt mapView sampleRegistry 2 (bytes32OfNat 1) (bytes32OfNat 2) =
      some (sampleRegistry.store 2
        { state := faultyContext.state,
          log := faultyContext.log ++
            [⟨"JunoStateGetStorageAt failed to read contract storage", "err", ioFailure⟩] },
        none) ∧
    JunoStateGetNonceAt mapView sampleRegistry 2 (bytes32OfNat 1) =
      some (sampleRegistry.store 2
        { state := faultyContext.state,
          log := faultyContext.log ++
            [⟨"JunoStateGetNonceAt failed to read contract nonce", "err", ioFailure⟩] },
        none) ∧
    JunoStateGetClassHashAt mapView sampleRegistry 2 (bytes32OfNat 1) =
      some (sampleRegistry.store 2
        { state := faultyContext.state,
          log := faultyContext.log ++
            [⟨"JunoStateGetClassHashAt failed to read contract class", "err", ioFailure⟩] },
        none) :=
  have T := C7_failed_lookup_logs_and_returns_null mapView sampleRegistry 2 faultyContext
    (bytes32OfNat 1) (bytes32OfNat 2) rfl
  ⟨T.1 ioFailure rfl (by decide), T.2.1 ioFailure rfl (by decide),
    T.2.2.1 ioFailure rfl (by decide)⟩

/-- C8: on a live handle, if the mutation of the state view called by
`JunoStateSetStorage`, `JunoStateSetClassHashAt` or
`JunoStateSetCompiledClassHash` (at the decoded inputs and version `0`) reports
an error, the operation appends exactly one entry carrying that error to the
log and returns normally, as a successful write does; if the mutation reports
no error the log is as it was.  Either way the context holds the state the
mutation left behind. -/
theorem C8_write_failure_logged_and_swallowed {σ κ : Type} (sv : StateView σ κ)
    (reg : Registry σ) (h : Nat) (ctx : Context σ) (a k v : Bytes32)
    (hlive : unwrapContext reg h = some ctx) :
    (∀ s' e, sv.SetStorage ctx.state (makeFeltFromPtr a) (makeFeltFromPtr k)
          (makeFeltFromPtr v) 0 = (s', some e) →
        JunoStateSetStorage sv reg h a k v =
          some (reg.store h
            { state := s',
              log := ctx.log ++ [⟨"JunoStateSetStorage failed to set storage", "err", e⟩] })) ∧
    (∀ s', sv.SetStorage ctx.state (makeFeltFromPtr a) (makeFeltFromPtr k)
          (makeFeltFromPtr v) 0 = (s', none) →
        JunoStateSetStorage sv reg h a k v =
          some (reg.store h { state := s', log := ctx.log })) ∧
    (∀ s' e, sv.SetClassHashAt ctx.state (makeFeltFromPtr a) (makeFeltFromPtr k) 0
          = (s', some e) →
        JunoStateSetClassHashAt sv reg h a k =
          some (reg.store h
            { state := s',
              log := ctx.log ++
                [⟨"JunoStateSetClassHashAt failed to set class hash at contract addr",
                  "err", e⟩] })) ∧
    (∀ s', sv.SetClassHashAt ctx.state (makeFeltFromPtr a) (makeFeltFromPtr k) 0
          = (s', none) →
        JunoStateSetClassHashAt sv reg h a k =
          some (reg.store h { state := s', log := ctx.log })) ∧
    (∀ s' e, sv.SetCompiledClassHash ctx.state (makeFeltFromPtr a) (makeFeltFromPtr k) 0
          = (s', some e) →
        JunoStateSetCompiledClassHash sv reg h a k =
          some (reg.store h
            { state := s',
              log := ctx.log ++
                [⟨"JunoStateSetCompiledClassHash failed to set compiled class hash",
                  "err", e⟩] })) ∧
    (∀ s', sv.SetCompiledClassHash ctx.state (makeFeltFromPtr a) (makeFeltFromPtr k) 0
          = (s', none) →
        JunoStateSetCompiledClassHash sv reg h a k =
          some (reg.store h { state := s', log := ctx.log })) := by
  refine ⟨?_, ?_, ?_, ?_, ?_, ?_⟩
  · intro s' e hs
    simp [JunoStateSetStorage, hlive, hs, Context.Errorw]
  · intro s' hs
    simp [JunoStateSetStorage, hlive, hs]
  · intro s' e hs
    simp [JunoStateSetClassHashAt, hlive, hs, Context.Errorw]
  · intro s' hs
    simp [JunoStateSetClassHashAt, hlive, hs]
  · intro s' e hs
    simp [JunoStateSetCompiledClassHash, hlive, hs, Context.Errorw]
  · intro s' hs
    simp [JunoStateSetCompiledClassHash, hlive, hs]

theorem C8_write_failure_logged_and_swallowed_witness :
    JunoStateSetStorage mapView sampleRegistry 2 (bytes32OfNat 1) (bytes32OfNat 2)
        (bytes32OfNat 3) =
      some (sampleRegistry.store 2
        { state := faultyContext.state,
          log := faultyContext.log ++
            [⟨"JunoStateSetStorage failed to set storage", "err", ioFailure⟩] }) ∧
    JunoStateSetClassHashAt mapView sampleRegistry 2 (bytes32OfNat 1) (bytes32OfNat 2) =
      some (sampleRegistry.store 2
        { state := faultyContext.state,
          log := faultyContext.log ++
            [⟨"JunoStateSetClassHashAt failed to set class hash at contract addr",
              "err", ioFailure⟩] }) ∧
    JunoStateSetCompiledClassHash mapView sampleRegistry 2 (bytes32OfNat 1)
        (bytes32OfNat 2) =
      some (sampleRegistry.store 2
        { state := faultyContext.state,
          log := faultyContext.log ++
            [⟨"JunoStateSetCompiledClassHash failed to set compiled class hash",
              "err", ioFailure⟩] }) ∧
    JunoStateSetStorage mapView sampleRegistry 1 (bytes32OfNat 1) (bytes32OfNat 2)
        (bytes32OfNat 3) =
      some (sampleRegistry.store 1
        { state :=
            { (MapState.empty : MapState Nat) with
              storage := [((makeFeltFromPtr (bytes32OfNat 1),
                makeFeltFromPtr (bytes32OfNat 2)), makeFeltFromPtr (bytes32OfNat 3))] },
          log := emptyContext.log }) ∧
    JunoStateSetClassHashAt mapView sampleRegistry 1 (bytes32OfNat 1) (bytes32OfNat 2) =
      some (sampleRegistry.store 1
        { state :=
            { (MapState.empty : MapState Nat) with
              classHashes := [(makeFeltFromPtr (bytes32OfNat 1),
                makeFeltFromPtr (bytes32OfNat 2))] },
          log := emptyContext.log }) ∧
    JunoStateSetCompiledClassHash mapView sampleRegistry 1 (bytes32OfNat 1)
        (bytes32OfNat 2) =
      some (sampleRegistry.store 1
        { state :=
            { (MapState.empty : MapState Nat) with
              compiledClassHashes := [(makeFeltFromPtr (bytes32OfNat 1),
                makeFeltFromPtr (bytes32OfNat 2))] },
          log := emptyContext.log }) :=
  have F := C8_write_failure_logged_and_swallowed mapView sampleRegistry 2 faultyContext
    (bytes32OfNat 1) (bytes32OfNat 2) (bytes32OfNat 3) rfl
  have S := C8_write_failure_logged_and_swallowed mapView sampleRegistry 1 emptyContext
    (bytes32OfNat 1) (bytes32OfNat 2) (bytes32OfNat 3) rfl
  ⟨F.1 _ ioFailure rfl, F.2.2.1 _ ioFailure rfl, F.2.2.2.2.1 _ ioFailure rfl,
    S.2.1 _ rfl, S.2.2.2.1 _ rfl, S.2.2.2.2.2 _ rfl⟩

/-- C6: on a live handle, `JunoStateGetCompiledClass` returns the null result
when the class lookup reports `db.ErrKeyNotFound`, when it reports any other
error, and when the class is found but marshaling it fails; when lookup and
marshaling both succeed it returns a non-null buffer holding exactly the
marshaled bytes of the stored class.  These four cases are all there are. -/
theorem C6_compiled_class_null_or_marshaled {σ κ : Type} (sv : StateView σ κ)
    (marshal : κ → Except GoError (List (Fin 256))) (reg : Registry σ) (h : Nat)
    (ctx : Context σ) (c : Bytes32) (hlive : unwrapContext reg h = some ctx) :
    (∀ e, sv.Class ctx.state (makeFeltFromPtr c) = .error e →
        errorsIs e db.ErrKeyNotFound = true →
        JunoStateGetCompiledClass sv marshal reg h c = some (reg, none)) ∧
    (∀ e, sv.Class ctx.state (makeFeltFromPtr c) = .error e →
        errorsIs e db.ErrKeyNotFound = false →
        ∃ reg', JunoStateGetCompiledClass sv marshal reg h c = some (reg', none)) ∧
    (∀ val e, sv.Class ctx.state (makeFeltFromPtr c) = .ok val →
        marshal val.Class = .error e →
        ∃ reg', JunoStateGetCompiledClass sv marshal reg h c = some (reg', none)) ∧
    (∀ val bytes, sv.Class ctx.state (makeFeltFromPtr c) = .ok val →
        marshal val.Class = .ok bytes →
        JunoStateGetCompiledClass sv marshal reg h c = some (reg, some bytes)) ∧
    ((∃ e, sv.Class ctx.state (makeFeltFromPtr c) = .error e ∧
          errorsIs e db.ErrKeyNotFound = true) ∨
      (∃ e, sv.Class ctx.state (makeFeltFromPtr c) = .error e ∧
          errorsIs e db.ErrKeyNotFound = false) ∨
      (∃ val e, sv.Class ctx.state (makeFeltFromPtr c) = .ok val ∧
          marshal val.Class = .error e) ∨
      (∃ val bytes, sv.Class ctx.state (makeFeltFromPtr c) = .ok val ∧
          marshal val.Class = .ok bytes)) := by
  refine ⟨?_, ?_, ?_, ?_, ?_⟩
  · intro e he hnf
    simp [JunoStateGetCompiledClass, hlive, he, hnf]
  · intro e he hnf
    exact ⟨reg.store h (ctx.Errorw "JunoStateGetCompiledClass failed to read class" "err" e),
      by simp [JunoStateGetCompiledClass, hlive, he, hnf]⟩
  · intro val e hv hm
    exact ⟨reg.store h
        (ctx.Errorw "JunoStateGetCompiledClass failed to marshal compiled class" "err" e),
      by simp [JunoStateGetCompiledClass, hlive, hv, hm]⟩
  · intro val bytes hv hm
    simp [JunoStateGetCompiledClass, hlive, hv, hm, cstring]
  · cases hc : sv.Class ctx.state (makeFeltFromPtr c) with
    | error e =>
      cases hnf : errorsIs e db.ErrKeyNotFound with
      | true => exact Or.inl ⟨e, rfl, hnf⟩
      | false => exact Or.inr (Or.inl ⟨e, rfl, hnf⟩)
    | ok val =>
      cases hm : marshal val.Class with
      | error e => exact Or.inr (Or.inr (Or.inl ⟨val, e, rfl, hm⟩))
      | ok bytes => exact Or.inr (Or.inr (Or.inr ⟨val, bytes, rfl, hm⟩))

theorem C6_compiled_class_null_or_marshaled_witness :
    JunoStateGetCompiledClass mapView sampleMarshal sampleRegistry 3 (bytes32OfNat 0xcafe)
        = some (sampleRegistry, none) ∧
    (∃ reg', JunoStateGetCompiledClass mapView sampleMarshal sampleRegistry 2
        (bytes32OfNat 0xdead) = some (reg', none)) ∧
    (∃ reg', JunoStateGetCompiledClass mapView sampleMarshal sampleRegistry 3
        (bytes32OfNat 0xbeef) = some (reg', none)) ∧
    JunoStateGetCompiledClass mapView sampleMarshal sampleRegistry 3 (bytes32OfNat 0xdead)
        = some (sampleRegistry, some [7]) :=
  ⟨(C6_compiled_class_null_or_marshaled mapView sampleMarshal sampleRegistry 3
      classContext (bytes32OfNat 0xcafe) rfl).1 db.ErrKeyNotFound rfl (by decide),
    (C6_compiled_class_null_or_marshaled mapView sampleMarshal sampleRegistry 2
      faultyContext (bytes32OfNat 0xdead) rfl).2.1 ioFailure rfl (by decide),
    (C6_compiled_class_null_or_marshaled mapView sampleMarshal sampleRegistry 3
      classContext (bytes32OfNat 0xbeef) rfl).2.2.1 ⟨0, 0⟩
      (.sentinel "unsupported class version") rfl rfl,
    (C6_compiled_class_null_or_marshaled mapView sampleMarshal sampleRegistry 3
      classContext (bytes32OfNat 0xdead) rfl).2.2.2.1 ⟨0, 7⟩ [7] rfl rfl⟩

/-- C10: on a live handle, a call of `JunoStateGetCompiledClass` leaves the state
alone and appends at most one entry to the log of the context; it appends one
if and only if the class lookup failed with an error that is not
`db.ErrKeyNotFound`, or the lookup succeeded and marshaling failed.  So a
class hash that is not found logs nothing, and neither does a lookup followed
by a successful marshaling. -/
theorem C10_compiled_class_logging_policy {σ κ : Type} (sv : StateView σ κ)
    (marshal : κ → Except GoError (List (Fin 256))) (reg : Registry σ) (h : Nat)
    (ctx : Context σ) (c : Bytes32) (hlive : unwrapContext reg h = some ctx) :
    ∃ reg' r entries,
      JunoStateGetCompiledClass sv marshal reg h c = some (reg', r) ∧
      unwrapContext reg' h = some { state := ctx.state, log := ctx.log ++ entries } ∧
      entries.length ≤ 1 ∧
      (entries ≠ [] ↔
        ((∃ e, sv.Class ctx.state (makeFeltFromPtr c) = .error e ∧
            errorsIs e db.ErrKeyNotFound = false) ∨
         (∃ val e, sv.Class ctx.state (makeFeltFromPtr c) = .ok val ∧
            marshal val.Class = .error e))) := by
  cases hc : sv.Class ctx.state (makeFeltFromPtr c) with
  | error e =>
    cases hnf : errorsIs e db.ErrKeyNotFound with
    | true =>
      refine ⟨reg, none, [], ?_, ?_, ?_, ?_⟩
      · simp [JunoStateGetCompiledClass, hlive, hc, hnf]
      · simpa using hlive
      · simp
      · simp [hnf]
    | false =>
      refine ⟨reg.store h (ctx.Errorw "JunoStateGetCompiledClass failed to read class" "err" e),
        none, [⟨"JunoStateGetCompiledClass failed to read class", "err", e⟩],
        ?_, unwrapContext_store _ _ _, ?_, ?_⟩
      · simp [JunoStateGetCompiledClass, hlive, hc, hnf, Context.Errorw]
      · simp
      · simp [hnf]
  | ok val =>
    cases hm : marshal val.Class with
    | error e =>
      refine ⟨reg.store h
          (ctx.Errorw "JunoStateGetCompiledClass failed to marshal compiled class" "err" e),
        none, [⟨"JunoStateGetCompiledClass failed to marshal compiled class", "err", e⟩],
        ?_, unwrapContext_store _ _ _, ?_, ?_⟩
      · simp [JunoStateGetCompiledClass, hlive, hc, hm, Context.Errorw]
      · simp
      · simp [hm]
    | ok bytes =>
      refine ⟨reg, some (cstring bytes), [], ?_, ?_, ?_, ?_⟩
      · simp [JunoStateGetCompiledClass, hlive, hc, hm]
      · simpa using hlive
      · simp
      · simp [hm]

theorem C10_compiled_class_logging_policy_witness :
    ∃ reg' r entries,
      JunoStateGetCompiledClass mapView sampleMarshal sampleRegistry 3 (bytes32OfNat 0xbeef)
        = some (reg', r) ∧
      unwrapContext reg' 3 =
        some { state := classContext.state, log := classContext.log ++ entries } ∧
      entries.length ≤ 1 ∧
      (entries ≠ [] ↔
        ((∃ e, mapView.Class classContext.state (makeFeltFromPtr (bytes32OfNat 0xbeef))
              = .error e ∧ errorsIs e db.ErrKeyNotFound = false) ∨
         (∃ val e, mapView.Class classContext.state (makeFeltFromPtr (bytes32OfNat 0xbeef))
              = .ok val ∧ sampleMarshal val.Class = .error e))) :=
  C10_compiled_class_logging_policy mapView sampleMarshal sampleRegistry 3 classContext
    (bytes32OfNat 0xbeef) rfl

/-! ### The codec on canonical buffers -/

theorem fromBigEndian_append (l : List (Fin 256)) (b : Fin 256) :
    fromBigEndian (l ++ [b]) = fromBigEndian l * 256 + b.val := by
  simp [fromBigEndian, List.foldl_append]

theorem toBigEndian_fromBigEndian (l : List (Fin 256)) :
    toBigEndian l.length (fromBigEndian l) = l := by
  induction l using List.reverseRecOn with
  | nil => rfl
  | append_singleton l b ih =>
    have hb : b.val < 256 := b.isLt
    have h1 : (fromBigEndian l * 256 + b.val) / 256 = fromBigEndian l := by omega
    have h2 : (fromBigEndian l * 256 + b.val) % 256 = b.val := by omega
    simp only [List.length_append, List.length_singleton, fromBigEndian_append, toBigEndian,
      h1, ih]
    congr 2
    exact Fin.ext h2

theorem fromBigEndian_toBigEndian (n x : Nat) :
    fromBigEndian (toBigEndian n x) = x % 256 ^ n := by
  induction n generalizing x with
  | zero => simp [toBigEndian, fromBigEndian, Nat.mod_one]
  | succ n ih =>
    rw [toBigEndian, fromBigEndian_append, ih, Nat.pow_succ', Nat.mod_mul]
    simp only
    ring

theorem modulus_lt_width : felt.Modulus < 256 ^ felt.Bytes := by
  unfold felt.Modulus felt.Bytes; norm_num

/-- Decoding a buffer and encoding the result gives the buffer back exactly when
the buffer is canonical, that is, its big-endian value is below the prime. -/
theorem encode_decode_eq_iff (v : Bytes32) :
    makePtrFromFelt (makeFeltFromPtr v) = v ↔ fromBigEndian v.val < felt.Modulus := by
  constructor
  · intro h
    have hv : fromBigEndian (makePtrFromFelt (makeFeltFromPtr v)).val = fromBigEndian v.val := by
      rw [h]
    have hlt : fromBigEndian v.val % felt.Modulus < felt.Modulus :=
      Nat.mod_lt _ felt.modulus_pos
    simp only [makePtrFromFelt, makeFeltFromPtr, fromBigEndian_toBigEndian] at hv
    rw [Nat.mod_eq_of_lt (lt_trans hlt modulus_lt_width)] at hv
    rw [← hv]
    exact hlt
  · intro h
    apply Subtype.ext
    have hround := toBigEndian_fromBigEndian v.val
    rw [v.property] at hround
    simp only [makePtrFromFelt, makeFeltFromPtr, Nat.mod_eq_of_lt h]
    exact hround

theorem mapView_reads_its_writes {κ : Type} :
    StorageReadsItsWrites (mapView : StateView (MapState κ) κ) := by
  intro s s' a k v n hset
  simp only [mapView] at hset
  cases hf : s.fault with
  | some e => simp [hf] at hset
  | none =>
    simp only [hf, Prod.mk.injEq, and_true] at hset
    subst hset
    simp [mapView, MapState.lookup, hf, findRecord]

/-! ### Storage: write, then read -/

/-- C2 as stated fails: over the keyed store, writing the 32-byte value with all
bytes `0xff` at address `1`, key `2` succeeds, and the read that follows
returns the encoding of that value reduced modulo the prime, a buffer that is
not equal to the value written. -/
theorem C2_counterexample_noncanonical_value :
    (mapView.SetStorage emptyContext.state (makeFeltFromPtr (bytes32OfNat 1))
        (makeFeltFromPtr (bytes32OfNat 2)) (makeFeltFromPtr allOnes) 0).2 = none ∧
    ((JunoStateSetStorage mapView sampleRegistry 1 (bytes32OfNat 1) (bytes32OfNat 2)
        allOnes).bind
      (fun reg' => JunoStateGetStorageAt mapView reg' 1 (bytes32OfNat 1)
        (bytes32OfNat 2))).map Prod.snd
      = some (some (makePtrFromFelt (makeFeltFromPtr allOnes))) ∧
    makePtrFromFelt (makeFeltFromPtr allOnes) ≠ allOnes :=
  ⟨rfl, rfl, by decide⟩

/-- C2, amended: on a live handle over a state view that reads back what its
last successful `SetStorage` stored, after a `JunoStateSetStorage(h, a, k, v)`
whose set succeeds, `JunoStateGetStorageAt(h, a, k)` returns the non-null
encoding of `v` decoded, that is of `v` reduced modulo the prime; this buffer
equals `v` exactly when `v` is canonical (its big-endian value is below the
prime), which covers zero and the field's maximum value. -/
theorem C2_storage_write_then_read {σ κ : Type} (sv : StateView σ κ)
    (hlaw : StorageReadsItsWrites sv) (reg : Registry σ) (h : Nat) (ctx : Context σ)
    (a k v : Bytes32) (s' : σ) (hlive : unwrapContext reg h = some ctx)
    (hset : sv.SetStorage ctx.state (makeFeltFromPtr a) (makeFeltFromPtr k)
      (makeFeltFromPtr v) 0 = (s', none)) :
    ∃ reg', JunoStateSetStorage sv reg h a k v = some reg' ∧
      JunoStateGetStorageAt sv reg' h a k
        = some (reg', some (makePtrFromFelt (makeFeltFromPtr v))) ∧
      (makePtrFromFelt (makeFeltFromPtr v) = v ↔ fromBigEndian v.val < felt.Modulus) := by
  refine ⟨reg.store h { state := s', log := ctx.log }, ?_, ?_, encode_decode_eq_iff v⟩
  · simp [JunoStateSetStorage, hlive, hset]
  · have hget := hlaw _ _ _ _ _ _ hset
    simp [JunoStateGetStorageAt, unwrapContext_store, hget]

theorem C2_storage_write_then_read_witness :
    ∃ reg', JunoStateSetStorage mapView sampleRegistry 1 (bytes32OfNat 1) (bytes32OfNat 2)
        (bytes32OfNat (felt.Modulus - 1)) = some reg' ∧
      JunoStateGetStorageAt mapView reg' 1 (bytes32OfNat 1) (bytes32OfNat 2)
        = some (reg', some (makePtrFromFelt
            (makeFeltFromPtr (bytes32OfNat (felt.Modulus - 1))))) ∧
      (makePtrFromFelt (makeFeltFromPtr (bytes32OfNat (felt.Modulus - 1)))
          = bytes32OfNat (felt.Modulus - 1) ↔
        fromBigEndian (bytes32OfNat (felt.Modulus - 1)).val < felt.Modulus) :=
  C2_storage_write_then_read mapView mapView_reads_its_writes sampleRegistry 1 emptyContext
    (bytes32OfNat 1) (bytes32OfNat 2) (bytes32OfNat (felt.Modulus - 1))
    { (MapState.empty : MapState Nat) with
      storage := [((makeFeltFromPtr (bytes32OfNat 1), makeFeltFromPtr (bytes32OfNat 2)),
        makeFeltFromPtr (bytes32OfNat (felt.Modulus - 1)))] }
    rfl rfl

/-! ### The setters that apply nothing -/

/-- C3 at the scenario of the specification: over the empty store the nonce of
address `0x1` reads as zero; `JunoStateSetNonce` with nonce `0x5` returns the
registry untouched, and the read that follows still returns the encoding of
zero, which is not the encoding of `0x5`. -/
theorem C3_set_nonce_then_read_still_zero :
    (JunoStateGetNonceAt mapView sampleRegistry 1 (bytes32OfNat 1)).map Prod.snd
      = some (some (makePtrFromFelt felt.Zero)) ∧
    JunoStateSetNonce sampleRegistry 1 (bytes32OfNat 1) (bytes32OfNat 5)
      = some sampleRegistry ∧
    ((JunoStateSetNonce sampleRegistry 1 (bytes32OfNat 1) (bytes32OfNat 5)).bind
      (fun reg' => JunoStateGetNonceAt mapView reg' 1 (bytes32OfNat 1))).map Prod.snd
      = some (some (makePtrFromFelt felt.Zero)) ∧
    makePtrFromFelt felt.Zero ≠ bytes32OfNat 5 :=
  ⟨rfl, rfl, rfl, by decide⟩

/-- C4 fails for two of the five setters: whatever the registry, the handle and
the inputs, `JunoStateSetNonce` and `JunoStateSetContractClass` return the
registry they were given (or panic on a dead handle), so no context, state or
log changes; in particular, over the empty store a class hash `0xdead` "set"
by `JunoStateSetContractClass` is still not found by the lookup that follows. -/
theorem C4_set_nonce_and_contract_class_apply_nothing {σ : Type} (reg : Registry σ)
    (h : Nat) (a n c : Bytes32) (cls : List (Fin 256)) :
    JunoStateSetNonce reg h a n = (unwrapContext reg h).map (fun _ => reg) ∧
    JunoStateSetContractClass reg h c cls = (unwrapContext reg h).map (fun _ => reg) ∧
    ((JunoStateSetContractClass sampleRegistry 1 (bytes32OfNat 0xdead) [7]).bind
      (fun reg' => JunoStateGetCompiledClass mapView sampleMarshal reg' 1
        (bytes32OfNat 0xdead))) = some (sampleRegistry, none) := by
  refine ⟨?_, ?_, rfl⟩
  · unfold JunoStateSetNonce
    cases unwrapContext reg h <;> rfl
  · unfold JunoStateSetContractClass
    cases unwrapContext reg h <;> rfl

/-! ### Failed reads against absent records -/

/-- C9 as stated fails: over the keyed store, the storage lookup behind handle
`2` fails with a store-internal error and the one behind handle `1` finds no
record, and `JunoStateGetStorageAt` returns null for the first and a non-null
buffer for the second. -/
theorem C9_counterexample_storage_failure_differs :
    mapView.ContractStorage faultyContext.state (makeFeltFromPtr (bytes32OfNat 1))
        (makeFeltFromPtr (bytes32OfNat 2)) = .error ioFailure ∧
    errorsIs ioFailure db.ErrKeyNotFound = false ∧
    mapView.ContractStorage emptyContext.state (makeFeltFromPtr (bytes32OfNat 1))
        (makeFeltFromPtr (bytes32OfNat 2)) = .error db.ErrKeyNotFound ∧
    (JunoStateGetStorageAt mapView sampleRegistry 2 (bytes32OfNat 1)
        (bytes32OfNat 2)).map Prod.snd = some none ∧
    (JunoStateGetStorageAt mapView sampleRegistry 1 (bytes32OfNat 1)
        (bytes32OfNat 2)).map Prod.snd = some (some (makePtrFromFelt felt.Zero)) ∧
    (JunoStateGetStorageAt mapView sampleRegistry 2 (bytes32OfNat 1)
        (bytes32OfNat 2)).map Prod.snd ≠
      (JunoStateGetStorageAt mapView sampleRegistry 1 (bytes32OfNat 1)
        (bytes32OfNat 2)).map Prod.snd :=
  ⟨rfl, by decide, rfl, rfl, rfl, by decide⟩

/-- C9, amended: take a live handle whose lookup fails with an error that is not
`db.ErrKeyNotFound` and a live handle whose lookup reports
`db.ErrKeyNotFound`.  `JunoStateGetCompiledClass` returns the same result for
both, null.  `JunoStateGetStorageAt`, `JunoStateGetNonceAt` and
`JunoStateGetClassHashAt` return null for the first and the non-null encoding
of zero for the second, two different results. -/
theorem C9_failed_read_against_absent_record {σ κ : Type} (sv : StateView σ κ)
    (marshal : κ → Except GoError (List (Fin 256))) (regF regN : Registry σ)
    (hF hN : Nat) (ctxF ctxN : Context σ) (a k : Bytes32)
    (hliveF : unwrapContext regF hF = some ctxF)
    (hliveN : unwrapContext regN hN = some ctxN) :
    (∀ eF eN, sv.Class ctxF.state (makeFeltFromPtr a) = .error eF →
        errorsIs eF db.ErrKeyNotFound = false →
        sv.Class ctxN.state (makeFeltFromPtr a) = .error eN →
        errorsIs eN db.ErrKeyNotFound = true →
        (JunoStateGetCompiledClass sv marshal regF hF a).map Prod.snd = some none ∧
        (JunoStateGetCompiledClass sv marshal regN hN a).map Prod.snd = some none) ∧
    (∀ eF eN, sv.ContractStorage ctxF.state (makeFeltFromPtr a) (makeFeltFromPtr k)
          = .error eF →
        errorsIs eF db.ErrKeyNotFound = false →
        sv.ContractStorage ctxN.state (makeFeltFromPtr a) (makeFeltFromPtr k) = .error eN →
        errorsIs eN db.ErrKeyNotFound = true →
        (JunoStateGetStorageAt sv regF hF a k).map Prod.snd = some none ∧
        (JunoStateGetStorageAt sv regN hN a k).map Prod.snd
          = some (some (makePtrFromFelt felt.Zero)) ∧
        (JunoStateGetStorageAt sv regF hF a k).map Prod.snd ≠
          (JunoStateGetStorageAt sv regN hN a k).map Prod.snd) ∧
    (∀ eF eN, sv.ContractNonce ctxF.state (makeFeltFromPtr a) = .error eF →
        errorsIs eF db.ErrKeyNotFound = false →
        sv.ContractNonce ctxN.state (makeFeltFromPtr a) = .error eN →
        errorsIs eN db.ErrKeyNotFound = true →
        (JunoStateGetNonceAt sv regF hF a).map Prod.snd = some none ∧
        (JunoStateGetNonceAt sv regN hN a).map Prod.snd
          = some (some (makePtrFromFelt felt.Zero)) ∧
        (JunoStateGetNonceAt sv regF hF a).map Prod.snd ≠
          (JunoStateGetNonceAt sv regN hN a).map Prod.snd) ∧
    (∀ eF eN, sv.ContractClassHash ctxF.state (makeFeltFromPtr a) = .error eF →
        errorsIs eF db.ErrKeyNotFound = false →
        sv.ContractClassHash ctxN.state (makeFeltFromPtr a) = .error eN →
        errorsIs eN db.ErrKeyNotFound = true →
        (JunoStateGetClassHashAt sv regF hF a).map Prod.snd = some none ∧
        (JunoStateGetClassHashAt sv regN hN a).map Prod.snd
          = some (some (makePtrFromFelt felt.Zero)) ∧
        (JunoStateGetClassHashAt sv regF hF a).map Prod.snd ≠
          (JunoStateGetClassHashAt sv regN hN a).map Prod.snd) := by
  refine ⟨?_, ?_, ?_, ?_⟩
  · intro eF eN hF1 hF2 hN1 hN2
    simp [JunoStateGetCompiledClass, hliveF, hliveN, hF1, hF2, hN1, hN2]
  · intro eF eN hF1 hF2 hN1 hN2
    simp [JunoStateGetStorageAt, hliveF, hliveN, hF1, hF2, hN1, hN2]
  · intro eF eN hF1 hF2 hN1 hN2
    simp [JunoStateGetNonceAt, hliveF, hliveN, hF1, hF2, hN1, hN2]
  · intro eF eN hF1 hF2 hN1 hN2
    simp [JunoStateGetClassHashAt, hliveF, hliveN, hF1, hF2, hN1, hN2]

theorem C9_failed_read_against_absent_record_witness :
    ((JunoStateGetCompiledClass mapView sampleMarshal sampleRegistry 2
          (bytes32OfNat 1)).map Prod.snd = some none ∧
      (JunoStateGetCompiledClass mapView sampleMarshal sampleRegistry 1
          (bytes32OfNat 1)).map Prod.snd = some none) ∧
    ((JunoStateGetStorageAt mapView sampleRegistry 2 (bytes32OfNat 1)
          (bytes32OfNat 2)).map Prod.snd = some none ∧
      (JunoStateGetStorageAt mapView sampleRegistry 1 (bytes32OfNat 1)
          (bytes32OfNat 2)).map Prod.snd = some (some (makePtrFromFelt felt.Zero)) ∧
      (JunoStateGetStorageAt mapView sampleRegistry 2 (bytes32OfNat 1)
          (bytes32OfNat 2)).map Prod.snd ≠
        (JunoStateGetStorageAt mapView sampleRegistry 1 (bytes32OfNat 1)
          (bytes32OfNat 2)).map Prod.snd) ∧
    ((JunoStateGetNonceAt mapView sampleRegistry 2 (bytes32OfNat 1)).map Prod.snd
          = some none ∧
      (JunoStateGetNonceAt mapView sampleRegistry 1 (bytes32OfNat 1)).map Prod.snd
          = some (some (makePtrFromFelt felt.Zero)) ∧
      (JunoStateGetNonceAt mapView sampleRegistry 2 (bytes32OfNat 1)).map Prod.snd ≠
        (JunoStateGetNonceAt mapView sampleRegistry 1 (bytes32OfNat 1)).map Prod.snd) ∧
    ((JunoStateGetClassHashAt mapView sampleRegistry 2 (bytes32OfNat 1)).map Prod.snd
          = some none ∧
      (JunoStateGetClassHashAt mapView sampleRegistry 1 (bytes32OfNat 1)).map Prod.snd
          = some (some (makePtrFromFelt felt.Zero)) ∧
      (JunoStateGetClassHashAt mapView sampleRegistry 2 (bytes32OfNat 1)).map Prod.snd ≠
        (JunoStateGetClassHashAt mapView sampleRegistry 1 (bytes32OfNat 1)).map Prod.snd) :=
  have T := C9_failed_read_against_absent_record mapView sampleMarshal sampleRegistry
    sampleRegistry 2 1 faultyContext emptyContext (bytes32OfNat 1) (bytes32OfNat 2) rfl rfl
  ⟨T.1 ioFailure db.ErrKeyNotFound rfl (by decide) rfl (by decide),
    T.2.1 ioFailure db.ErrKeyNotFound rfl (by decide) rfl (by decide),
    T.2.2.1 ioFailure db.ErrKeyNotFound rfl (by decide) rfl (by decide),
    T.2.2.2 ioFailure db.ErrKeyNotFound rfl (by decide) rfl (by decide)⟩

end vm
